import Mathlib

/-!
Verification of the book-catalog scraping service (`AppService`, NestJS + Prisma +
Playwright) against its natural-language specification.

The service code is shallowly embedded: pure computations become Lean functions,
the Prisma store becomes an explicit state (lists of rows plus a serial-id counter),
the browser-automation engine becomes an oracle parameter (a function from a URL to
the raw data its in-page extraction would return), and the primitive store writes
emitted by an operation are recorded as an explicit trace whose elements are the
atomic commit units (a Prisma `$transaction` is one trace element).  JS string
semantics (truthiness of the empty string, `includes`, `replace(/\s+/g,'')`,
`toLowerCase`) are modelled by explicit helper functions.
-/

namespace Server1

/-- JS `a || b` on strings: the empty string is falsy. -/
def jsOr (a b : String) : String := if a = "" then b else a

/-- Executable contiguous-sublist test. -/
def hasInfix (sub : List Char) : List Char → Bool
  | [] => sub.isEmpty
  | c :: rest => sub.isPrefixOf (c :: rest) || hasInfix sub rest

/-- JS `s.includes(sub)` / Prisma `contains`: substring test. -/
def strContains (s sub : String) : Bool := hasInfix sub.toList s.toList

/-- JS `s.replace(/\s+/g, '')`: remove every whitespace character. -/
def stripWs (s : String) : String := ⟨s.toList.filter (fun c => !c.isWhitespace)⟩

/-- JS `s.toLowerCase()`: lower-case each character. -/
def strToLower (s : String) : String := ⟨s.toList.map Char.toLower⟩

/-- The class field `EXISTING_SLUG_MAPPING` (slug → canonical URL path fragment). -/
def EXISTING_SLUG_MAPPING : List (String × String) :=
  [("all-books", "collections/all-books"),
   ("new-arrivals", "collections/new-arrivals"),
   ("bestsellers", "collections/bestsellers"),
   ("featured-books", "collections/featured-books"),
   ("non-fiction", "collections/non-fiction-books"),
   ("biography", "collections/biography-and-memoir-books"),
   ("history", "collections/history-books"),
   ("self-help", "collections/self-help-books"),
   ("business-economics", "collections/business-and-economics-books"),
   ("health-fitness", "collections/health-and-fitness-books"),
   ("science", "collections/science-books"),
   ("technology", "collections/technology-books"),
   ("philosophy", "collections/philosophy-books"),
   ("psychology", "collections/psychology-books"),
   ("engineering", "collections/engineering-books"),
   ("medical", "collections/medical-books"),
   ("law", "collections/law-books"),
   ("commerce", "collections/commerce-books"),
   ("arts", "collections/arts-books"),
   ("competitive-exams", "collections/competitive-exams-books"),
   ("music", "collections/music"),
   ("movies", "collections/movies"),
   ("stationery", "collections/stationery"),
   ("rare-books", "collections/rare-books")]

/-- The class field `SLUG_MAPPING`: the existing mapping spread together with the
new fiction / children / rare entries.  The two parts share no key, so the JS
object spread is plain list concatenation with first-match lookup. -/
def SLUG_MAPPING : List (String × String) :=
  EXISTING_SLUG_MAPPING ++
  [("fiction-books", "collections/fiction-books"),
   ("crime-mystery", "collections/crime-and-mystery-books"),
   ("fantasy", "collections/fantasy-fiction-books"),
   ("science-fiction", "collections/science-fiction-books"),
   ("thriller-suspense", "collections/thriller-and-suspense-books"),
   ("romance", "collections/romance-books"),
   ("classic-fiction", "collections/classic-fiction-books"),
   ("historical-fiction", "collections/historical-fiction-books"),
   ("horror-ghost", "collections/horror-books"),
   ("graphic-novels", "collections/graphic-novels-and-comic-books"),
   ("childrens-books", "collections/childrens-books"),
   ("childrens-fiction", "collections/childrens-fiction-books"),
   ("childrens-non-fiction", "collections/childrens-non-fiction-books"),
   ("activity-early-learning", "collections/childrens-picture-and-activity-books"),
   ("baby-toddler", "pages/baby-and-toddler-books"),
   ("ages-5-8", "pages/childrens-books-ages-5-8"),
   ("ages-9-12", "pages/childrens-books-ages-9-12"),
   ("teenage-young-adult", "pages/teenage-and-young-adult-books"),
   ("rare-fiction-books", "collections/rare-fiction-books"),
   ("rare-sci-fi", "collections/rare-sci-fi-books"),
   ("rare-fantasy", "collections/rare-fantasy-books"),
   ("rare-horror", "collections/rare-horror-books"),
   ("rare-romance", "collections/rare-romance-books"),
   ("rare-biography", "collections/rare-biography-true-story-books"),
   ("rare-art", "collections/rare-art-fashion-photography-books"),
   ("rare-medicine", "collections/rare-medicine-books"),
   ("rare-ephemera", "collections/rare-ephemera")]

/-- `this.SLUG_MAPPING[slug] || slug` (all mapped values are non-empty strings,
so an absent key is the only falsy case). -/
def resolveSlug (slug : String) : String :=
  match SLUG_MAPPING.find? (fun kv => kv.1 == slug) with
  | some kv => kv.2
  | none => slug

/-- A `Category` row as touched by the crawl paths
(`id`, `title`, `url`, `lastPage`, `parentId`). -/
structure Category where
  id : Nat
  title : String
  url : String
  lastPage : Nat
  parentId : Option Nat
deriving DecidableEq

/-- A `Product` row as written by the category crawl
(`title`, `author`, `price`, `image`, `categoryId`). -/
structure Product where
  id : Nat
  title : String
  author : String
  price : String
  image : String
  categoryId : Nat
deriving DecidableEq

/-- The persisted store visible to the category crawl, with the serial id
counter of the `Product` table. -/
structure DB where
  categories : List Category
  products : List Product
  nextProductId : Nat
deriving DecidableEq

/-- One raw card as returned by the in-page extraction of
`scrapeCategoryPages` (an item of `scrapedItems`). -/
structure RawCard where
  title : String
  author : String
  price : String
  image : String
deriving DecidableEq

/-- A `Product` row about to be inserted by `createMany` (id not yet assigned). -/
structure NewProduct where
  title : String
  author : String
  price : String
  image : String
  categoryId : Nat
deriving DecidableEq

/-- The row built for `product.createMany` from a scraped card:
`{ title, author: p.author || 'Unknown', price, image, categoryId }`. -/
def toNewProduct (cid : Nat) (c : RawCard) : NewProduct :=
  ⟨c.title, jsOr c.author "Unknown", c.price, c.image, cid⟩

/-- The soft dedup key used by `scrapeCategoryPages`:
`` `${title.toLowerCase()}|${price.replace(/\s+/g,'')}` ``. -/
def dedupKey (title price : String) : String :=
  strToLower title ++ "|" ++ stripWs price

/-- The `seenFinal` dedup loop of `scrapeCategoryPages`: keep the first
occurrence of each dedup key within one page. -/
def dedupCards : List RawCard → List String → List RawCard
  | [], _ => []
  | c :: rest, seen =>
    let k := dedupKey c.title c.price
    if seen.contains k then dedupCards rest seen
    else c :: dedupCards rest (k :: seen)

/-- `scrapeCategoryPages(urls)`: for each URL the in-page extraction (the
oracle) yields raw cards, which are deduplicated per page; pages are
concatenated in order. -/
def scrapeCategoryPages (oracle : String → List RawCard) (urls : List String) : List RawCard :=
  (urls.map (fun u => dedupCards (oracle u) [])).flatten

/-- A primitive store write. -/
inductive PrimOp where
  | createManyProducts (rows : List NewProduct)
  | updateLastPage (catId : Nat) (value : Nat)
deriving DecidableEq

/-- One atomic commit unit: either a single primitive write, or a
`$transaction` of several primitives that commit together. -/
inductive DbEvent where
  | prim (op : PrimOp)
  | txn (ops : List PrimOp)
deriving DecidableEq

/-- Serial-id assignment performed by the store on insert. -/
def assignIds : List NewProduct → Nat → List Product
  | [], _ => []
  | r :: rest, n => ⟨n, r.title, r.author, r.price, r.image, r.categoryId⟩ :: assignIds rest (n + 1)

/-- Apply one primitive write.  `createMany` with `skipDuplicates: true` skips
only rows that would violate a unique constraint; the migrations declare no
unique constraint on `Product` other than its serial primary key, so every row
is inserted. -/
def applyPrim (st : DB) : PrimOp → DB
  | .createManyProducts rows =>
      { st with products := st.products ++ assignIds rows st.nextProductId,
                nextProductId := st.nextProductId + rows.length }
  | .updateLastPage cid v =>
      { st with categories :=
          st.categories.map (fun c => if c.id == cid then { c with lastPage := v } else c) }

/-- Apply one atomic commit unit. -/
def applyEvent (st : DB) : DbEvent → DB
  | .prim op => applyPrim st op
  | .txn ops => ops.foldl applyPrim st

/-- All store states observable while a write trace executes: the state before
the trace and the state after each atomic commit unit. -/
def statesAlong (st : DB) : List DbEvent → List DB
  | [] => [st]
  | e :: rest => st :: statesAlong (applyEvent st e) rest

/-- The stored products of one category (`product.findMany({ where: { categoryId } })`,
also the value of the `_count.products` include). -/
def productsOfCat (st : DB) (cid : Nat) : List Product :=
  st.products.filter (fun p => p.categoryId == cid)

/-- The `lastPage` of the first stored category with the given id. -/
def lastPageOf (st : DB) (cid : Nat) : Option Nat :=
  (st.categories.find? (fun c => c.id == cid)).map (fun c => c.lastPage)

/-- The `whereClause` of `getProductsByCategory`: a plain `contains` on the URL,
except for the fiction root, which additionally excludes the `non-fiction`
substring. -/
def matchesWhere (searchString : String) (c : Category) : Bool :=
  if searchString == "collections/fiction-books" then
    strContains c.url "fiction-books" && !(strContains c.url "non-fiction")
  else
    strContains c.url searchString

/-- `category.findFirst({ where: whereClause })`. -/
def categoryLookup (searchString : String) (cats : List Category) : Option Category :=
  cats.find? (matchesWhere searchString)

/-- The fixed page-size constant of `getProductsByCategory`. -/
def ITEMS_PER_PAGE : Nat := 40

/-- The outcome of one `getProductsByCategory` call: final store state, the
returned products, the URLs handed to the page scraper, and the trace of
atomic store writes. -/
structure FetchResult where
  state : DB
  result : List Product
  fetched : List String
  trace : List DbEvent
deriving DecidableEq

/-- The target-URL computation of `getProductsByCategory`: the canonical URL
itself when nothing is stored yet, otherwise the canonical URL with the
`shopify_products[page]` query parameter set to `floor(count / 40) + 1`,
joined with `&` when the URL already has a query string and `?` otherwise. -/
def targetUrlFor (cat : Category) (currentCount : Nat) : String :=
  if currentCount = 0 then cat.url
  else
    let nextPage := currentCount / ITEMS_PER_PAGE + 1
    let separator := if cat.url.toList.contains '?' then "&" else "?"
    cat.url ++ separator ++ "shopify_products%5Bpage%5D=" ++ toString nextPage

/-- The writes emitted by the append step: one `$transaction` holding the
`createMany` of the scraped rows and the `lastPage` update, emitted only when
the scrape found at least one card. -/
def appendTrace (cat : Category) (currentCount : Nat) (scraped : List RawCard) :
    List DbEvent :=
  if 0 < scraped.length then
    [DbEvent.txn [PrimOp.createManyProducts (scraped.map (toNewProduct cat.id)),
                  PrimOp.updateLastPage cat.id (currentCount + scraped.length)]]
  else []

/-- The body of `getProductsByCategory` once the category record is in hand:
cache-hit check, target-URL computation, single-page scrape, and the
`$transaction` that inserts the new rows and updates `lastPage`. -/
def crawlStep (oracle : String → List RawCard) (cat : Category) (loadMore : Bool)
    (st : DB) : FetchResult :=
  let currentCount := (productsOfCat st cat.id).length
  if loadMore = false ∧ 0 < currentCount then
    ⟨st, productsOfCat st cat.id, [], []⟩
  else
    let targetUrl := targetUrlFor cat currentCount
    let scraped := scrapeCategoryPages oracle [targetUrl]
    let trace := appendTrace cat currentCount scraped
    let finalSt := trace.foldl applyEvent st
    ⟨finalSt, productsOfCat finalSt cat.id, [targetUrl], trace⟩

/-- `getProductsByCategory(slug, loadMore)`.  `sync` is the
`syncCategories` fallback run on a lookup miss (its own navigation-driven
writes are outside this model); `oracle` is the in-page card extraction. -/
def getProductsByCategory (oracle : String → List RawCard) (sync : DB → DB)
    (slug : String) (loadMore : Bool) (st : DB) : FetchResult :=
  let searchString := resolveSlug slug
  match categoryLookup searchString st.categories with
  | some cat => crawlStep oracle cat loadMore st
  | none =>
      let st1 := sync st
      match categoryLookup searchString st1.categories with
      | some cat => crawlStep oracle cat loadMore st1
      | none => ⟨st1, [], [], []⟩

/-! ### Deep product-detail extraction (`deepSearchScraper`) -/

/-- A recommendation card (title, price, image). -/
structure RecCard where
  title : String
  price : String
  image : String
deriving DecidableEq

/-- The record produced by the in-page `page.evaluate` of `deepSearchScraper`
(accordion walk, fallback selectors, specification rows and regex heuristics).
Specifications are an insertion-ordered key → value map (a JS object holds no
duplicate key). -/
structure Extracted where
  summary : String
  reviews : List String
  specifications : List (String × String)
  condition : String
  recommendations : List RecCard
deriving DecidableEq

/-- The `requestedKeys` list of `deepSearchScraper`. -/
def requestedKeys : List String :=
  ["SKU", "ISBN 13", "ISBN 10", "Title", "Author", "Condition",
   "Binding Type", "Publisher", "Year published", "Number of pages", "Cover note", "Note"]

/-- JS `k in specs`: key presence. -/
def hasKey (specs : List (String × String)) (k : String) : Bool :=
  specs.any (fun kv => kv.1 == k)

/-- JS `specs[k]` read with `|| ''` applied: value of the key, empty if absent. -/
def specValue (specs : List (String × String)) (k : String) : String :=
  match specs.find? (fun kv => kv.1 == k) with
  | some kv => kv.2
  | none => ""

/-- One iteration of the key-presence loop:
`if (!(k in specs)) specs[k] = ''`. -/
def ensureKeyStep (acc : List (String × String)) (k : String) : List (String × String) :=
  if hasKey acc k then acc else acc ++ [(k, "")]

/-- The loop `for (const k of requestedKeys) if (!(k in specs)) specs[k] = ''`. -/
def ensureKeys (specs : List (String × String)) : List (String × String) :=
  requestedKeys.foldl ensureKeyStep specs

/-- The `ProductDetails` record returned to the caller.  Review entries are the
texts wrapped by `.map(t => ({ text: t }))` in the source. -/
structure ProductDetails where
  summary : String
  condition : String
  specifications : List (String × String)
  recommendations : List RecCard
  reviews : List String
deriving DecidableEq

/-- `deepSearchScraper`: the in-page extraction is the input (`none` models a
thrown extraction error, caught and converted to a `null` return); the
normalization that follows it — guaranteeing the requested specification keys
and defaulting the condition — is embedded from the source. -/
def deepSearchScraper (extracted : Option Extracted) : Option ProductDetails :=
  match extracted with
  | none => none
  | some e =>
    let specs := ensureKeys e.specifications
    let condition := jsOr e.condition (specValue specs "Condition")
    some { summary := jsOr e.summary "",
           condition := jsOr condition "Pre-owned",
           specifications := specs,
           recommendations := e.recommendations,
           reviews := e.reviews }

/-! ### Search-and-scrape (`searchAndScrapeProduct`) -/

/-- A `Product` row as touched by `searchAndScrapeProduct` (the enrichment
columns included; ids are `Int` so the `-1` upsert sentinel is representable). -/
structure SProduct where
  id : Int
  title : String
  price : String
  image : String
  categoryId : Option Int
  summary : Option String
  specifications : Option (List (String × String))
  recommendations : Option (List RecCard)
deriving DecidableEq

/-- The `Product` table as seen by `searchAndScrapeProduct`, with its serial id
counter. -/
structure SStore where
  products : List SProduct
  nextId : Int
deriving DecidableEq

/-- JS truthiness of `existingProduct.summary` (null and the empty string are
falsy). -/
def truthySummary (p : SProduct) : Bool :=
  match p.summary with
  | some s => s != ""
  | none => false

/-- What a `searchAndScrapeProduct` call hands back: the stored record on a
cache hit, the freshly extracted details otherwise, or `null`. -/
inductive SearchOutcome where
  | cached (p : SProduct)
  | fresh (d : ProductDetails)
  | noResult
deriving DecidableEq

/-- Outcome of one `searchAndScrapeProduct` call: final store, returned value,
and how many times `performSearchAndDeepScrape` (a full navigation session) ran. -/
structure SearchRun where
  store : SStore
  outcome : SearchOutcome
  scrapeCalls : Nat
deriving DecidableEq

/-- `product.upsert({ where: { id: targetId }, update: {...}, create: {...} })`:
update the matching row in place, or create the fallback record
(`title: productName, price: "0.00", image: "", categoryId: 1`) if no row has
the target id. -/
def upsertById (st : SStore) (targetId : Int) (productName : String)
    (d : ProductDetails) : SStore :=
  if st.products.any (fun p => p.id == targetId) then
    { st with products := st.products.map (fun p =>
        if p.id == targetId then
          { p with summary := some d.summary,
                   specifications := some d.specifications,
                   recommendations := some d.recommendations }
        else p) }
  else
    { products := st.products ++
        [⟨st.nextId, productName, "0.00", "", some 1,
          some d.summary, some d.specifications, some d.recommendations⟩],
      nextId := st.nextId + 1 }

/-- `searchAndScrapeProduct(productName)`.  `scrape` is
`performSearchAndDeepScrape` (search navigation, anchor matching and deep
extraction), abstracted as an oracle from the query to its result. -/
def searchAndScrapeProduct (scrape : String → Option ProductDetails)
    (productName : String) (st : SStore) : SearchRun :=
  match st.products.find? (fun p => strContains p.title productName) with
  | some p =>
      if truthySummary p then ⟨st, .cached p, 0⟩
      else
        match scrape productName with
        | some d => ⟨upsertById st p.id productName d, .fresh d, 1⟩
        | none => ⟨st, .noResult, 1⟩
  | none =>
      match scrape productName with
      | some d => ⟨upsertById st (-1) productName d, .fresh d, 1⟩
      | none => ⟨st, .noResult, 1⟩

/-! ### Bestsellers (`getBestsellers`, `getCategorySlug`) -/

/-- Lower-case letter or digit: the characters the slugify regex keeps. -/
def isSlugChar (c : Char) : Bool :=
  ('a' ≤ c && c ≤ 'z') || ('0' ≤ c && c ≤ '9')

mutual

/-- JS `t.replace(/[^a-z0-9]+/g, '-')`: each maximal run of non-kept
characters becomes a single dash. -/
def squashNonSlug : List Char → List Char
  | [] => []
  | c :: rest =>
    if isSlugChar c then c :: squashNonSlug rest
    else '-' :: skipNonSlugRun rest

/-- Skip the remainder of a non-kept run (its dash was already emitted). -/
def skipNonSlugRun : List Char → List Char
  | [] => []
  | c :: rest =>
    if isSlugChar c then c :: squashNonSlug rest
    else skipNonSlugRun rest

end

/-- The slugified form of a (lower-cased) title. -/
def slugify (t : String) : String := ⟨squashNonSlug t.toList⟩

/-- `getCategorySlug(title)`: the title-classification heuristic. -/
def getCategorySlug (title : String) : String :=
  let t := strToLower title
  if strContains t "non-fiction" then "non-fiction-books"
  else if strContains t "fiction" then "fiction-books"
  else if strContains t "children" then "childrens-books"
  else if strContains t "rare" then "rare-books"
  else slugify t

/-- A bestseller product card (`ProductData`). -/
structure BProduct where
  title : String
  author : String
  price : String
  image : String
  promo : Option String
deriving DecidableEq

/-- A stored `Collection` row with its included products. -/
structure BCollection where
  id : Nat
  title : String
  products : List BProduct
deriving DecidableEq

/-- One homepage section scraped by `scrapeBestsellers` (slug not yet set). -/
structure BSection where
  title : String
  products : List BProduct
deriving DecidableEq

/-- The `Collection` table with its serial id counter. -/
structure BStore where
  collections : List BCollection
  nextCollectionId : Nat
deriving DecidableEq

/-- One entry of the value `getBestsellers` returns: a titled section carrying
its display slug and products. -/
structure BView where
  title : String
  slug : String
  products : List BProduct
deriving DecidableEq

/-- Outcome of one `getBestsellers` call: returned sections, final store, and
how many homepage scrape sessions ran. -/
structure BOut where
  result : List BView
  store : BStore
  scrapeCalls : Nat
deriving DecidableEq

/-- The row stored for a scraped bestseller product:
`author: p.author || 'Unknown Author'`, other fields as scraped. -/
def toStoredBProduct (p : BProduct) : BProduct :=
  { p with author := jsOr p.author "Unknown Author" }

/-- `collection.create` for each scraped section, in order. -/
def createCollections (st : BStore) : List BSection → BStore
  | [] => st
  | s :: rest =>
      createCollections
        { collections := st.collections ++
            [⟨st.nextCollectionId, s.title, s.products.map toStoredBProduct⟩],
          nextCollectionId := st.nextCollectionId + 1 } rest

/-- `getBestsellers()`.  `scrape` is the homepage session of
`scrapeBestsellers` (navigation, cookie handling and in-page container
extraction), abstracted as an oracle; `scrapeBestsellers` itself attaches
`getCategorySlug` to each section it returns. -/
def getBestsellers (scrape : Unit → List BSection) (st : BStore) : BOut :=
  match st.collections with
  | _ :: _ =>
      { result := st.collections.map (fun c => ⟨c.title, getCategorySlug c.title, c.products⟩),
        store := st,
        scrapeCalls := 0 }
  | [] =>
      let sections := scrape ()
      { result := sections.map (fun s => ⟨s.title, getCategorySlug s.title, s.products⟩),
        store := createCollections st sections,
        scrapeCalls := 1 }

/-! ### Cookie-consent dismissal (`handleCookieConsent`) -/

/-- The behaviour of one page towards the cookie-consent routine.  Every
primitive the routine calls may fail (`Except.error`), modelling a rejected
promise or thrown DOM error. -/
structure Page where
  query : String → Except String Bool
  isVisible : String → Except String Bool
  click : String → Except String Unit
  waitForHidden : String → Nat → Except String Unit

/-- JS `promise.catch(handler)` / `try { } catch { }` on one computation. -/
def ecatch {α : Type} (x : Except String α) (f : String → Except String α) :
    Except String α :=
  match x with
  | .error e => f e
  | .ok a => .ok a

/-- Selector for the cookie banner container. -/
def bannerSelector : String := ".ot-sdk-container, #onetrust-banner-sdk"

/-- Selector for the reject-all control. -/
def rejectBtnSelector : String := "#onetrust-reject-all-handler"

/-- Selector for the accept-all control. -/
def acceptBtnSelector : String := "#onetrust-accept-btn-handler"

/-- The body of `handleCookieConsent` inside its outer `try`: banner probe,
reject-else-accept click with per-call catches, and the bounded hidden-wait
with its own `try`/`catch`. -/
def cookieConsentBody (page : Page) : Except String Unit := do
  let banner ← page.query bannerSelector
  if banner then
    let rejectVisible ← ecatch (page.isVisible rejectBtnSelector) (fun _ => .ok false)
    if rejectVisible then
      let _ ← ecatch (page.click rejectBtnSelector) (fun _ => .ok ())
      pure ()
    else
      let acceptVisible ← ecatch (page.isVisible acceptBtnSelector) (fun _ => .ok false)
      if acceptVisible then
        let _ ← ecatch (page.click acceptBtnSelector) (fun _ => .ok ())
        pure ()
    ecatch (page.waitForHidden bannerSelector 8000) (fun _ => .ok ())
  else
    pure ()

/-- `handleCookieConsent(page, log)`: the body wrapped in the outer
`try`/`catch` that logs and swallows every failure. -/
def handleCookieConsent (page : Page) : Except String Unit :=
  ecatch (cookieConsentBody page) (fun _ => .ok ())

/-! ### Concrete fixtures for witnesses and counterexamples -/

/-- A page extraction that always yields the same single card — identical
card markup on every fetched page. -/
def demoOracle : String → List RawCard := fun _ => [⟨"A Tale", "Bob", "£ 5.00", "img"⟩]

/-- A stored fiction-root category. -/
def demoCat : Category := ⟨1, "Fiction", "collections/fiction-books", 0, none⟩

/-- A store holding the fiction-root category and no products. -/
def demoDB : DB := ⟨[demoCat], [], 1⟩

/-- One product already stored for the fiction-root category. -/
def demoProduct : Product := ⟨1, "A Tale", "Bob", "£ 5.00", "img", 1⟩

/-- A store holding the fiction-root category with one stored product. -/
def demoDB1 : DB := ⟨[demoCat], [demoProduct], 2⟩

/-- The run of `getProductsByCategory("fiction-books", false)` on the empty
category store. -/
def c1Run : FetchResult := getProductsByCategory demoOracle id "fiction-books" false demoDB

/-- Store state after a first `fetchCategory` call scraped one card from page 1. -/
def c2StoreAfterFirst : DB :=
  (getProductsByCategory demoOracle id "fiction-books" false demoDB).state

/-- Store state after a follow-up `loadMore` call: with one stored product the
next-page computation yields page `floor(1/40)+1 = 1` again, and the scrape
returns the identical card markup. -/
def c2StoreAfterSecond : DB :=
  (getProductsByCategory demoOracle id "fiction-books" true c2StoreAfterFirst).state

/-- Extraction details used by search-and-scrape fixtures. -/
def sampleDetails : ProductDetails := ⟨"Fresh summary", "Pre-owned", [], [], []⟩

/-- A deep-scrape session that always succeeds with `sampleDetails`. -/
def sampleScrape : String → Option ProductDetails := fun _ => some sampleDetails

/-- A stored product whose title contains the query but whose summary is null. -/
def c7FirstMatch : SProduct := ⟨1, "Dune Messiah", "£4.00", "", some 1, none, none, none⟩

/-- A stored product whose title contains the query and whose summary is
non-empty. -/
def c7CachedHolder : SProduct :=
  ⟨2, "Dune", "£5.00", "", some 1, some "Classic sci-fi epic", none, none⟩

/-- A store in which a summary-bearing match exists but is not the first
title match. -/
def c7Store : SStore := ⟨[c7FirstMatch, c7CachedHolder], 3⟩

/-- A store whose first title match carries a non-empty summary. -/
def c7StoreCached : SStore := ⟨[c7CachedHolder], 3⟩

/-- A sample extraction input with no condition anywhere. -/
def c6Sample : Extracted := ⟨"", [], [], "", []⟩

/-- The details `deepSearchScraper` produces from `c6Sample`. -/
def c6Details : ProductDetails :=
  ⟨"", "Pre-owned", requestedKeys.map (fun k => (k, "")), [], []⟩

/-- A stored collection row with no products. -/
def c8EmptyCollection : BCollection := ⟨1, "Empty Shelf", []⟩

/-- A collection store whose only collection has no products. -/
def c8Store : BStore := ⟨[c8EmptyCollection], 2⟩

/-- A homepage scrape that would find one non-empty section. -/
def c8Scrape : Unit → List BSection :=
  fun _ => [⟨"Fiction Picks", [⟨"B", "A", "£1", "", none⟩]⟩]

/-! ## Helper lemmas -/

theorem assignIds_length (rows : List NewProduct) (n : Nat) :
    (assignIds rows n).length = rows.length := by
  induction rows generalizing n with
  | nil => rfl
  | cons r rest ih => simp [assignIds, ih]

theorem assignIds_filter_cat (rows : List NewProduct) (n cid : Nat)
    (h : ∀ r ∈ rows, r.categoryId = cid) :
    (assignIds rows n).filter (fun p => p.categoryId == cid) = assignIds rows n := by
  induction rows generalizing n with
  | nil => rfl
  | cons r rest ih =>
    have hr : r.categoryId = cid := h r (List.mem_cons_self r rest)
    simp only [assignIds, List.filter_cons]
    rw [if_pos (by simp [hr])]
    rw [ih (n + 1) (fun x hx => h x (List.mem_cons_of_mem r hx))]

theorem find?_id_isSome_of_mem {c : Category} {l : List Category} (h : c ∈ l) :
    (l.find? (fun x => x.id == c.id)).isSome = true :=
  List.find?_isSome.mpr ⟨c, h, by simp⟩

theorem lastPage_update_find? (l : List Category) (cid v : Nat)
    (h : (l.find? (fun c => c.id == cid)).isSome = true) :
    ((l.map (fun c => if c.id == cid then { c with lastPage := v } else c)).find?
        (fun c => c.id == cid)).map (fun c => c.lastPage) = some v := by
  induction l with
  | nil => simp at h
  | cons c rest ih =>
    by_cases hc : (c.id == cid) = true
    · simp only [List.map_cons, if_pos hc]
      rw [List.find?_cons_of_pos _ (by simpa using hc)]
      rfl
    · simp only [List.map_cons, if_neg hc]
      rw [List.find?_cons_of_neg _ (by simpa using hc)]
      apply ih
      rwa [List.find?_cons_of_neg _ (by simpa using hc)] at h

theorem crawlStep_atomic (oracle : String → List RawCard) (cat : Category)
    (loadMore : Bool) (st : DB)
    (hsome : (st.categories.find? (fun c => c.id == cat.id)).isSome = true) :
    ∀ s ∈ statesAlong st (crawlStep oracle cat loadMore st).trace,
      (productsOfCat s cat.id = productsOfCat st cat.id ∧
        lastPageOf s cat.id = lastPageOf st cat.id) ∨
      ((productsOfCat s cat.id).take (productsOfCat st cat.id).length =
          productsOfCat st cat.id ∧
        (productsOfCat st cat.id).length < (productsOfCat s cat.id).length ∧
        lastPageOf s cat.id = some (productsOfCat s cat.id).length) := by
  intro s hs
  simp only [crawlStep] at hs
  by_cases hcache : loadMore = false ∧ 0 < (productsOfCat st cat.id).length
  · rw [if_pos hcache] at hs
    simp only [statesAlong, List.mem_singleton] at hs
    subst hs
    exact Or.inl ⟨rfl, rfl⟩
  · rw [if_neg hcache] at hs
    set count := (productsOfCat st cat.id).length with hcount
    set scraped := scrapeCategoryPages oracle [targetUrlFor cat count] with hscraped
    by_cases hscr : 0 < scraped.length
    · rw [show appendTrace cat count scraped =
          [DbEvent.txn [PrimOp.createManyProducts (scraped.map (toNewProduct cat.id)),
                        PrimOp.updateLastPage cat.id (count + scraped.length)]] by
            rw [appendTrace, if_pos hscr]] at hs
      simp only [statesAlong, List.mem_cons, List.not_mem_nil, or_false,
        List.mem_singleton] at hs
      rcases hs with rfl | rfl
      · exact Or.inl ⟨rfl, rfl⟩
      · right
        have hrows : ∀ r ∈ scraped.map (toNewProduct cat.id), r.categoryId = cat.id := by
          intro r hr
          rcases List.mem_map.mp hr with ⟨c, _, rfl⟩
          rfl
        have hprod :
            productsOfCat (applyEvent st
                (DbEvent.txn [PrimOp.createManyProducts (scraped.map (toNewProduct cat.id)),
                              PrimOp.updateLastPage cat.id (count + scraped.length)])) cat.id =
              productsOfCat st cat.id ++
                assignIds (scraped.map (toNewProduct cat.id)) st.nextProductId := by
          simp only [applyEvent, List.foldl, applyPrim, productsOfCat, List.filter_append]
          rw [assignIds_filter_cat _ _ _ hrows]
        have hlen : (assignIds (scraped.map (toNewProduct cat.id)) st.nextProductId).length =
            scraped.length := by
          rw [assignIds_length, List.length_map]
        have hlp :
            lastPageOf (applyEvent st
                (DbEvent.txn [PrimOp.createManyProducts (scraped.map (toNewProduct cat.id)),
                              PrimOp.updateLastPage cat.id (count + scraped.length)])) cat.id =
              some (count + scraped.length) := by
          simp only [applyEvent, List.foldl, applyPrim, lastPageOf]
          exact lastPage_update_find? st.categories cat.id (count + scraped.length) hsome
        refine ⟨?_, ?_, ?_⟩
        · rw [hprod, hcount, List.take_left]
        · rw [hprod, List.length_append, hlen, hcount]
          omega
        · rw [hlp, hprod, List.length_append, hlen, hcount]
    · rw [show appendTrace cat count scraped = [] by rw [appendTrace, if_neg hscr]] at hs
      simp only [statesAlong, List.mem_singleton] at hs
      subst hs
      exact Or.inl ⟨rfl, rfl⟩

/-! ## Claims -/

/-- C1: in `getProductsByCategory`, whenever the single-page scrape yields at
least one new card, the product inserts and the offset update
`lastPage = currentCount + newCount` commit as one atomic unit: every store
state observable along the call's write trace either shows none of the append
(stored products and offset for the category untouched) or all of it (the new
rows appended and the offset equal to the new stored count) — never the
inserts without the offset update or the offset update without the inserts. -/
theorem c1_page_append_atomic (oracle : String → List RawCard) (sync : DB → DB)
    (slug : String) (loadMore : Bool) (st : DB) (cat : Category)
    (hfound : categoryLookup (resolveSlug slug) st.categories = some cat) :
    ∀ s ∈ statesAlong st (getProductsByCategory oracle sync slug loadMore st).trace,
      (productsOfCat s cat.id = productsOfCat st cat.id ∧
        lastPageOf s cat.id = lastPageOf st cat.id) ∨
      ((productsOfCat s cat.id).take (productsOfCat st cat.id).length =
          productsOfCat st cat.id ∧
        (productsOfCat st cat.id).length < (productsOfCat s cat.id).length ∧
        lastPageOf s cat.id = some (productsOfCat s cat.id).length) := by
  have hmem : cat ∈ st.categories := List.mem_of_find?_eq_some (p := matchesWhere (resolveSlug slug)) hfound
  have hsome := find?_id_isSome_of_mem hmem
  intro s hs
  simp only [getProductsByCategory, hfound] at hs
  exact crawlStep_atomic oracle cat loadMore st hsome s hs

/-- C1 witness: the atomicity statement instantiated at a concrete run (empty
fiction category, a scrape that finds one card) and at the final state of its
write trace. -/
theorem c1_page_append_atomic_witness :
    (productsOfCat c1Run.state demoCat.id = productsOfCat demoDB demoCat.id ∧
      lastPageOf c1Run.state demoCat.id = lastPageOf demoDB demoCat.id) ∨
    ((productsOfCat c1Run.state demoCat.id).take (productsOfCat demoDB demoCat.id).length =
        productsOfCat demoDB demoCat.id ∧
      (productsOfCat demoDB demoCat.id).length < (productsOfCat c1Run.state demoCat.id).length ∧
      lastPageOf c1Run.state demoCat.id = some (productsOfCat c1Run.state demoCat.id).length) :=
  c1_page_append_atomic demoOracle id "fiction-books" false demoDB demoCat (by decide)
    c1Run.state (by decide)

/-- C2 (failing-input evaluation): a first call stores the one card scraped
from page 1; a follow-up `loadMore` call computes next page
floor(1/40) + 1 = 1, re-fetches page 1, re-extracts the identical card markup
and inserts it again — the store then holds two products of the same category
with the same (lowercased title, whitespace-stripped price) key, so the
duplicate insert was not an idempotent no-op (the migrations declare no unique
constraint on `Product` for `skipDuplicates` to act on). -/
theorem c2_duplicate_key_rows_stored :
    (c2StoreAfterSecond.products.filter (fun p =>
        p.categoryId == demoCat.id &&
        dedupKey p.title p.price == dedupKey "A Tale" "£ 5.00")).length = 2 := by
  decide

/-- C3: a `getProductsByCategory` call that reaches the crawl step fetches
exactly one URL — the category's canonical URL when the stored count is 0,
otherwise the canonical URL extended with the `shopify_products[page]` query
parameter whose value is floor(currentCount / pageSize) + 1, the page size
being the fixed constant 40. -/
theorem c3_single_target_url (oracle : String → List RawCard) (sync : DB → DB)
    (slug : String) (loadMore : Bool) (st : DB) (cat : Category)
    (hfound : categoryLookup (resolveSlug slug) st.categories = some cat)
    (hcrawl : loadMore = true ∨ (productsOfCat st cat.id).length = 0) :
    ITEMS_PER_PAGE = 40 ∧
    ((productsOfCat st cat.id).length = 0 →
      (getProductsByCategory oracle sync slug loadMore st).fetched = [cat.url]) ∧
    (0 < (productsOfCat st cat.id).length →
      (getProductsByCategory oracle sync slug loadMore st).fetched =
          [cat.url ++ "?" ++ "shopify_products%5Bpage%5D=" ++
            toString ((productsOfCat st cat.id).length / ITEMS_PER_PAGE + 1)] ∨
      (getProductsByCategory oracle sync slug loadMore st).fetched =
          [cat.url ++ "&" ++ "shopify_products%5Bpage%5D=" ++
            toString ((productsOfCat st cat.id).length / ITEMS_PER_PAGE + 1)]) := by
  have hnc : ¬(loadMore = false ∧ 0 < (productsOfCat st cat.id).length) := by
    rcases hcrawl with h | h
    · rintro ⟨h1, _⟩
      rw [h] at h1
      cases h1
    · rintro ⟨_, h2⟩
      omega
  refine ⟨rfl, ?_, ?_⟩
  · intro hzero
    simp only [getProductsByCategory, hfound, crawlStep]
    rw [if_neg hnc]
    simp only [targetUrlFor, if_pos hzero]
  · intro hpos
    have hz : ¬((productsOfCat st cat.id).length = 0) := by omega
    simp only [getProductsByCategory, hfound, crawlStep]
    rw [if_neg hnc]
    simp only [targetUrlFor, if_neg hz]
    by_cases hsep : '?' ∈ cat.url.data
    · exact Or.inr (by simp [hsep])
    · exact Or.inl (by simp [hsep])

/-- C3 witness: with one stored product (count 1) the fetched URL is the
canonical URL plus `?shopify_products%5Bpage%5D=1` (page floor(1/40)+1 = 1). -/
theorem c3_single_target_url_witness :
    ITEMS_PER_PAGE = 40 ∧
    ((getProductsByCategory demoOracle id "fiction-books" true demoDB1).fetched =
        [demoCat.url ++ "?" ++ "shopify_products%5Bpage%5D=" ++
          toString ((productsOfCat demoDB1 demoCat.id).length / ITEMS_PER_PAGE + 1)] ∨
      (getProductsByCategory demoOracle id "fiction-books" true demoDB1).fetched =
        [demoCat.url ++ "&" ++ "shopify_products%5Bpage%5D=" ++
          toString ((productsOfCat demoDB1 demoCat.id).length / ITEMS_PER_PAGE + 1)]) :=
  ⟨(c3_single_target_url demoOracle id "fiction-books" true demoDB1 demoCat
      (by decide) (Or.inl rfl)).1,
   (c3_single_target_url demoOracle id "fiction-books" true demoDB1 demoCat
      (by decide) (Or.inl rfl)).2.2 (by decide)⟩

/-- C4: the lookup clause built for the fiction-root fragment requires the URL
to contain `fiction-books` and to exclude `non-fiction`; hence a lookup for
the resolved slug `fiction-books` never returns a category whose URL contains
the non-fiction fragment. -/
theorem c4_fiction_root_lookup (cats : List Category) (c : Category)
    (h : categoryLookup (resolveSlug "fiction-books") cats = some c) :
    strContains c.url "fiction-books" = true ∧ strContains c.url "non-fiction" = false := by
  have hres : resolveSlug "fiction-books" = "collections/fiction-books" := by decide
  rw [hres] at h
  unfold categoryLookup at h
  have hp := List.find?_some h
  simp only [matchesWhere, beq_self_eq_true, if_true] at hp
  rw [Bool.and_eq_true] at hp
  exact ⟨hp.1, by simpa using hp.2⟩

/-- C4 witness: the fiction-root lookup over a store holding the canonical
fiction category returns it, and its URL contains `fiction-books` but not
`non-fiction`. -/
theorem c4_fiction_root_lookup_witness :
    strContains demoCat.url "fiction-books" = true ∧
    strContains demoCat.url "non-fiction" = false :=
  c4_fiction_root_lookup [demoCat] demoCat (by decide)

/-- C5: with `loadMore = false` and at least one stored product, the call
returns exactly the stored products of the category, fetches no page, emits no
write, and leaves the store unchanged. -/
theorem c5_cache_hit (oracle : String → List RawCard) (sync : DB → DB)
    (slug : String) (st : DB) (cat : Category)
    (hfound : categoryLookup (resolveSlug slug) st.categories = some cat)
    (hstored : 0 < (productsOfCat st cat.id).length) :
    getProductsByCategory oracle sync slug false st =
      ⟨st, productsOfCat st cat.id, [], []⟩ := by
  simp only [getProductsByCategory, hfound, crawlStep]
  rw [if_pos ⟨trivial, hstored⟩]

/-- C5 witness: the cache-hit path on the store holding one stored product. -/
theorem c5_cache_hit_witness :
    getProductsByCategory demoOracle id "fiction-books" false demoDB1 =
      ⟨demoDB1, productsOfCat demoDB1 demoCat.id, [], []⟩ :=
  c5_cache_hit demoOracle id "fiction-books" demoDB1 demoCat (by decide) (by decide)

theorem hasKey_ensureKeyStep_preserve (acc : List (String × String)) (k k' : String)
    (h : hasKey acc k = true) : hasKey (ensureKeyStep acc k') k = true := by
  unfold ensureKeyStep
  by_cases hk : hasKey acc k'
  · rwa [if_pos hk]
  · rw [if_neg hk]
    unfold hasKey at h ⊢
    rw [List.any_append, h, Bool.true_or]

theorem hasKey_ensureKeyStep_self (acc : List (String × String)) (k : String) :
    hasKey (ensureKeyStep acc k) k = true := by
  unfold ensureKeyStep
  by_cases hk : hasKey acc k
  · rwa [if_pos hk]
  · rw [if_neg hk]
    unfold hasKey
    rw [List.any_append]
    simp

theorem hasKey_foldl_preserve (ks : List String) (acc : List (String × String))
    (k : String) (h : hasKey acc k = true) :
    hasKey (ks.foldl ensureKeyStep acc) k = true := by
  induction ks generalizing acc with
  | nil => exact h
  | cons k' rest ih =>
    exact ih (ensureKeyStep acc k') (hasKey_ensureKeyStep_preserve acc k k' h)

theorem hasKey_foldl_of_mem (ks : List String) (acc : List (String × String))
    (k : String) (h : k ∈ ks) :
    hasKey (ks.foldl ensureKeyStep acc) k = true := by
  induction ks generalizing acc with
  | nil => cases h
  | cons k' rest ih =>
    rcases List.mem_cons.mp h with rfl | h'
    · exact hasKey_foldl_preserve rest (ensureKeyStep acc k) k
        (hasKey_ensureKeyStep_self acc k)
    · exact ih (ensureKeyStep acc k') h'

theorem specValue_ensureKeyStep_empty (acc : List (String × String)) (k k' : String)
    (h : specValue acc k = "") : specValue (ensureKeyStep acc k') k = "" := by
  unfold ensureKeyStep
  by_cases hk : hasKey acc k'
  · rwa [if_pos hk]
  · rw [if_neg hk]
    unfold specValue at h ⊢
    rw [List.find?_append]
    cases hf : acc.find? (fun kv => kv.1 == k) with
    | some kv =>
        rw [hf] at h
        exact h
    | none =>
        by_cases hk2 : (k' == k) = true
        · simp [List.find?, hk2]
        · simp [List.find?, hk2]

theorem specValue_foldl_empty (ks : List String) (acc : List (String × String))
    (k : String) (h : specValue acc k = "") :
    specValue (ks.foldl ensureKeyStep acc) k = "" := by
  induction ks generalizing acc with
  | nil => exact h
  | cons k' rest ih =>
    exact ih (ensureKeyStep acc k') (specValue_ensureKeyStep_empty acc k k' h)

set_option maxHeartbeats 2000000 in
theorem hasKey_ensureKeys (specs : List (String × String)) (k : String)
    (h : k ∈ requestedKeys) : hasKey (ensureKeys specs) k = true := by
  unfold ensureKeys
  exact hasKey_foldl_of_mem requestedKeys specs k h

set_option maxHeartbeats 2000000 in
theorem specValue_ensureKeys_empty (specs : List (String × String))
    (h : specValue specs "Condition" = "") :
    specValue (ensureKeys specs) "Condition" = "" := by
  unfold ensureKeys
  exact specValue_foldl_empty requestedKeys specs "Condition" h

theorem deepSearchScraper_some (e : Extracted) :
    deepSearchScraper (some e) =
      some { summary := jsOr e.summary "",
             condition := jsOr (jsOr e.condition
               (specValue (ensureKeys e.specifications) "Condition")) "Pre-owned",
             specifications := ensureKeys e.specifications,
             recommendations := e.recommendations,
             reviews := e.reviews } := rfl

/-- C6: for every extraction input, `deepSearchScraper` returns a
specifications map containing all twelve required keys (possibly mapped to the
empty string), and its condition field is `Pre-owned` whenever neither the
dedicated condition selector nor the extracted specifications map yielded a
non-empty condition. -/
theorem c6_deep_extraction_keys_and_condition (e : Extracted) (d : ProductDetails)
    (hd : deepSearchScraper (some e) = some d) :
    (∀ k ∈ requestedKeys, hasKey d.specifications k = true) ∧
    (e.condition = "" → specValue e.specifications "Condition" = "" →
      d.condition = "Pre-owned") := by
  rw [deepSearchScraper_some] at hd
  have h3 := Option.some.inj hd
  subst h3
  constructor
  · intro k hk
    dsimp only
    exact hasKey_ensureKeys e.specifications k hk
  · intro hcond hspec
    dsimp only
    have hens : specValue (ensureKeys e.specifications) "Condition" = "" :=
      specValue_ensureKeys_empty e.specifications hspec
    rw [hcond, hens]
    rfl

/-- C6 witness: an extraction with empty condition and empty specifications
yields the twelve keys (checked at `Publisher`) and the `Pre-owned` default. -/
theorem c6_deep_extraction_witness :
    hasKey c6Details.specifications "Publisher" = true ∧
    c6Details.condition = "Pre-owned" :=
  ⟨(c6_deep_extraction_keys_and_condition c6Sample c6Details (by decide)).1
      "Publisher" (by decide),
   (c6_deep_extraction_keys_and_condition c6Sample c6Details (by decide)).2 rfl rfl⟩

/-- C9: `handleCookieConsent` never raises — for every page behaviour (banner
present or absent, controls visible, hidden, or throwing, the bounded wait
succeeding or failing), every failure is caught internally and the routine
returns normally. -/
theorem c9_cookie_consent_never_raises (page : Page) :
    handleCookieConsent page = Except.ok () := by
  unfold handleCookieConsent
  cases h : cookieConsentBody page with
  | error e => simp [ecatch, h]
  | ok a =>
      cases a
      simp [ecatch, h]

/-- C7 counterexample: in this store a product with title containing the query
and a non-empty summary exists (`Dune`, summary present), yet the call runs a
full search-and-scrape session (`scrapeCalls = 1`) and mutates the store,
because the title lookup returns the earlier row `Dune Messiah`, whose summary
is null. -/
theorem c7_counterexample :
    (c7Store.products.any (fun p => strContains p.title "Dune" && truthySummary p)) = true ∧
    (searchAndScrapeProduct sampleScrape "Dune" c7Store).scrapeCalls = 1 ∧
    (searchAndScrapeProduct sampleScrape "Dune" c7Store).store ≠ c7Store := by
  refine ⟨by decide, by decide, by decide⟩

/-- C7 (amended): if the first stored product in table order whose title
contains the query has a non-empty summary, `searchAndScrapeProduct` returns
that record as-is, runs no navigation session, and leaves the store
unchanged. -/
theorem c7_first_match_cache_hit (scrape : String → Option ProductDetails)
    (q : String) (st : SStore) (p : SProduct)
    (hfind : st.products.find? (fun x => strContains x.title q) = some p)
    (hsum : truthySummary p = true) :
    searchAndScrapeProduct scrape q st = ⟨st, .cached p, 0⟩ := by
  unfold searchAndScrapeProduct
  rw [hfind]
  simp [hsum]

/-- C7 witness: the cache-hit path on a store whose first title match carries
a non-empty summary. -/
theorem c7_first_match_cache_hit_witness :
    searchAndScrapeProduct sampleScrape "Dune" c7StoreCached =
      ⟨c7StoreCached, .cached c7CachedHolder, 0⟩ :=
  c7_first_match_cache_hit sampleScrape "Dune" c7StoreCached c7CachedHolder
    (by decide) (by decide)

/-- C10: when no stored product's title contains the query and the deep scrape
succeeds, the upsert's `where id: -1` matches nothing (serial ids are never
-1), so a brand-new record is created with title equal to the query itself,
price `"0.00"`, empty image, and category reference 1 — and the caller gets
the freshly extracted details object, not the stored record. -/
theorem c10_fallback_record_created (scrape : String → Option ProductDetails)
    (q : String) (st : SStore) (d : ProductDetails)
    (hnone : st.products.find? (fun x => strContains x.title q) = none)
    (hd : scrape q = some d)
    (hids : ∀ p ∈ st.products, p.id ≠ -1) :
    (searchAndScrapeProduct scrape q st).store.products =
      st.products ++ [⟨st.nextId, q, "0.00", "", some 1,
          some d.summary, some d.specifications, some d.recommendations⟩] ∧
    (searchAndScrapeProduct scrape q st).outcome = .fresh d := by
  unfold searchAndScrapeProduct
  rw [hnone, hd]
  have hany : st.products.any (fun p => p.id == (-1 : Int)) = false := by
    rw [Bool.eq_false_iff]
    intro hc
    rcases List.any_eq_true.mp hc with ⟨p, hp, hpe⟩
    exact hids p hp (by simpa using hpe)
  constructor
  · show (upsertById st (-1) q d).products = _
    unfold upsertById
    rw [if_neg (by simp [hany])]
  · rfl

/-- C10 witness: on an empty store the fallback record is created and the
details object is returned. -/
theorem c10_fallback_record_created_witness :
    (searchAndScrapeProduct sampleScrape "Dune" ⟨[], 1⟩).store.products =
      ([] : List SProduct) ++ [⟨(1 : Int), "Dune", "0.00", "", some 1,
          some sampleDetails.summary, some sampleDetails.specifications,
          some sampleDetails.recommendations⟩] ∧
    (searchAndScrapeProduct sampleScrape "Dune" ⟨[], 1⟩).outcome = .fresh sampleDetails :=
  c10_fallback_record_created sampleScrape "Dune" ⟨[], 1⟩ sampleDetails
    (by decide) (by decide) (by intro p hp; cases hp)

theorem getCategorySlug_rules (title : String) :
    (strContains (strToLower title) "non-fiction" = true →
      getCategorySlug title = "non-fiction-books") ∧
    (strContains (strToLower title) "non-fiction" = false →
      strContains (strToLower title) "fiction" = true →
      getCategorySlug title = "fiction-books") ∧
    (strContains (strToLower title) "non-fiction" = false →
      strContains (strToLower title) "fiction" = false →
      strContains (strToLower title) "children" = true →
      getCategorySlug title = "childrens-books") ∧
    (strContains (strToLower title) "non-fiction" = false →
      strContains (strToLower title) "fiction" = false →
      strContains (strToLower title) "children" = false →
      strContains (strToLower title) "rare" = true →
      getCategorySlug title = "rare-books") ∧
    (strContains (strToLower title) "non-fiction" = false →
      strContains (strToLower title) "fiction" = false →
      strContains (strToLower title) "children" = false →
      strContains (strToLower title) "rare" = false →
      getCategorySlug title = slugify (strToLower title)) := by
  refine ⟨?_, ?_, ?_, ?_, ?_⟩ <;> intros <;> simp_all [getCategorySlug]

theorem bview_slug_rules (v : BView) (hv : v.slug = getCategorySlug v.title) :
    (strContains (strToLower v.title) "non-fiction" = true →
      v.slug = "non-fiction-books") ∧
    (strContains (strToLower v.title) "non-fiction" = false →
      strContains (strToLower v.title) "fiction" = true →
      v.slug = "fiction-books") ∧
    (strContains (strToLower v.title) "non-fiction" = false →
      strContains (strToLower v.title) "fiction" = false →
      strContains (strToLower v.title) "children" = true →
      v.slug = "childrens-books") ∧
    (strContains (strToLower v.title) "non-fiction" = false →
      strContains (strToLower v.title) "fiction" = false →
      strContains (strToLower v.title) "children" = false →
      strContains (strToLower v.title) "rare" = true →
      v.slug = "rare-books") ∧
    (strContains (strToLower v.title) "non-fiction" = false →
      strContains (strToLower v.title) "fiction" = false →
      strContains (strToLower v.title) "children" = false →
      strContains (strToLower v.title) "rare" = false →
      v.slug = slugify (strToLower v.title)) := by
  rw [hv]
  exact getCategorySlug_rules v.title

/-- C8 counterexample: a store whose only `Collection` row has no products —
`getBestsellers` still takes the cache path (no scrape session runs, the
stored row is returned), although no collection has products cached, refuting
the claimed biconditional. -/
theorem c8_counterexample :
    (c8Store.collections.any (fun c => !c.products.isEmpty)) = false ∧
    (getBestsellers c8Scrape c8Store).scrapeCalls = 0 ∧
    (getBestsellers c8Scrape c8Store).result = [⟨"Empty Shelf", "empty-shelf", []⟩] := by
  refine ⟨by decide, by decide, by decide⟩

/-- C8 (amended): `getBestsellers` returns from cache — without navigating or
scraping — exactly when at least one `Collection` row exists (whether or not
it has products); in that case it returns the stored collections, and every
returned section carries a display slug derived by the title-classification
heuristic: a title containing `non-fiction` maps to `non-fiction-books`, else
containing `fiction` to `fiction-books`, else containing `children` to
`childrens-books`, else containing `rare` to `rare-books`, else the slugified
lower-cased title. -/
theorem c8_cache_iff_collection_rows (scrape : Unit → List BSection) (st : BStore) :
    ((getBestsellers scrape st).scrapeCalls = 0 ↔ st.collections ≠ []) ∧
    (st.collections ≠ [] →
      (getBestsellers scrape st).result =
        st.collections.map (fun c => ⟨c.title, getCategorySlug c.title, c.products⟩)) ∧
    (∀ v ∈ (getBestsellers scrape st).result,
      (strContains (strToLower v.title) "non-fiction" = true →
        v.slug = "non-fiction-books") ∧
      (strContains (strToLower v.title) "non-fiction" = false →
        strContains (strToLower v.title) "fiction" = true →
        v.slug = "fiction-books") ∧
      (strContains (strToLower v.title) "non-fiction" = false →
        strContains (strToLower v.title) "fiction" = false →
        strContains (strToLower v.title) "children" = true →
        v.slug = "childrens-books") ∧
      (strContains (strToLower v.title) "non-fiction" = false →
        strContains (strToLower v.title) "fiction" = false →
        strContains (strToLower v.title) "children" = false →
        strContains (strToLower v.title) "rare" = true →
        v.slug = "rare-books") ∧
      (strContains (strToLower v.title) "non-fiction" = false →
        strContains (strToLower v.title) "fiction" = false →
        strContains (strToLower v.title) "children" = false →
        strContains (strToLower v.title) "rare" = false →
        v.slug = slugify (strToLower v.title))) := by
  have hslug : ∀ v ∈ (getBestsellers scrape st).result, v.slug = getCategorySlug v.title := by
    obtain ⟨cols, nid⟩ := st
    cases cols with
    | nil =>
        intro v hv
        simp only [getBestsellers] at hv
        rcases List.mem_map.mp hv with ⟨s, _, rfl⟩
        rfl
    | cons c0 rest =>
        intro v hv
        simp only [getBestsellers] at hv
        rcases List.mem_map.mp hv with ⟨c, _, rfl⟩
        rfl
  refine ⟨?_, ?_, fun v hv => bview_slug_rules v (hslug v hv)⟩
  · obtain ⟨cols, nid⟩ := st
    cases cols with
    | nil => simp [getBestsellers]
    | cons c0 rest => simp [getBestsellers]
  · intro hne
    obtain ⟨cols, nid⟩ := st
    cases cols with
    | nil => exact absurd rfl hne
    | cons c0 rest => simp [getBestsellers]

/-- C8 witness: the cache path on the store with one (empty) collection, and
the slugified-title fallback rule evaluated on its returned section. -/
theorem c8_cache_iff_collection_rows_witness :
    (getBestsellers c8Scrape c8Store).result =
      c8Store.collections.map (fun c => ⟨c.title, getCategorySlug c.title, c.products⟩) ∧
    ((⟨"Empty Shelf", "empty-shelf", []⟩ : BView).slug = slugify (strToLower "Empty Shelf")) :=
  ⟨(c8_cache_iff_collection_rows c8Scrape c8Store).2.1 (by decide),
   ((c8_cache_iff_collection_rows c8Scrape c8Store).2.2
      ⟨"Empty Shelf", "empty-shelf", []⟩ (by decide)).2.2.2.2
      (by decide) (by decide) (by decide) (by decide)⟩

end Server1
